import Mathlib

/-!
Verification development for the `codex-tasks` task-lifecycle engine.

The definitions below are a shallow embedding of the Rust sources:
`src/task.rs` (states and metadata), `src/tasks/store.rs` (metadata I/O and
archive search), `src/tasks/status.rs` (state derivation and its internal
liveness probe), `src/commands/common.rs` (the service-level liveness probe),
`src/tasks/service.rs` (`send_prompt`, `start_task`, `stop_task_paths`,
`archive_task_inner`) and `src/worker/child.rs` (the detached worker).

Modelling conventions:
- machine integers are `Int`/`Nat`; PIDs are `Int` (Rust `i32`, no overflow
  arises in the claims);
- the filesystem is explicit state: a task directory is a record of its
  optional files, the store is an association list of task directories;
- syscall and subprocess outcomes (`kill`, `spawn`, opening files) are
  injected as explicit parameters, so every function is pure and executable;
- fallible code returns `Except StoreError`; `anyhow` messages are carried
  verbatim (Rust `format!` interpolation becomes string concatenation);
- `chrono::DateTime<Utc>` is modelled by its timeline position (a `Nat`);
  its RFC3339 rendering is modelled by an injective decimal rendering with
  an exact parser, mirroring the exact `to_rfc3339`/`parse_from_rfc3339`
  round trip that `src/task.rs` (`serde_datetime`) relies on;
- `serde_json` is modelled at the JSON-value level: `to_vec_pretty` then
  `from_str` is the identity on JSON values, so files store `Json` values.
-/

/-- Task lifecycle states, from `src/task.rs` (`TaskState`, serde
`rename_all = "UPPERCASE"`). -/
inductive TaskState
  | running
  | stopped
  | archived
  | died
deriving DecidableEq, Repr

/-- `TaskState::as_str`, the canonical uppercase rendering. -/
def TaskState.asStr : TaskState → String
  | .running => "RUNNING"
  | .stopped => "STOPPED"
  | .archived => "ARCHIVED"
  | .died => "DIED"

/-- Inverse of the serde `UPPERCASE` rendering, used when deserializing the
`state` field. -/
def taskStateFromStr (s : String) : Option TaskState :=
  if s = "RUNNING" then some .running
  else if s = "STOPPED" then some .stopped
  else if s = "ARCHIVED" then some .archived
  else if s = "DIED" then some .died
  else none

/-- Rust `char::is_whitespace`: the Unicode `White_Space` property, used by
`str::trim` in the prompt-validation checks. -/
def rustIsWhitespace (c : Char) : Bool :=
  let n := c.toNat
  (0x09 ≤ n && n ≤ 0x0D) || n = 0x20 || n = 0x85 || n = 0xA0 ||
    n = 0x1680 || (0x2000 ≤ n && n ≤ 0x200A) || n = 0x2028 || n = 0x2029 ||
    n = 0x202F || n = 0x205F || n = 0x3000

/-- Character-list form of Rust `str::trim`: drop `White_Space` characters
from both ends. -/
def trimChars (l : List Char) : List Char :=
  ((l.dropWhile rustIsWhitespace).reverse.dropWhile rustIsWhitespace).reverse

/-- Rust `prompt.trim().is_empty()`, the guard used by `start_task`,
`send_prompt` and the worker. -/
def promptBlank (s : String) : Bool :=
  (trimChars s.data).isEmpty

/-- Rust `prompt.trim()` as a string, used for the worker's `/quit`
comparison. -/
def rustTrim (s : String) : String :=
  String.mk (trimChars s.data)

/-- Little-endian base-10 digits with structural fuel (`fuel ≥ n` suffices),
so that the kernel can evaluate it on concrete inputs. -/
def decDigitsRevAux : Nat → Nat → List Nat
  | 0, _ => []
  | fuel + 1, n => if n = 0 then [] else (n % 10) :: decDigitsRevAux fuel (n / 10)

/-- Little-endian base-10 digits of `n` (empty for `0`). -/
def decDigitsRev (n : Nat) : List Nat := decDigitsRevAux n n

/-- The ASCII character of a decimal digit. -/
def digitChar10 (d : Nat) : Char := Char.ofNat (48 + d)

/-- The decimal digit of an ASCII character, if it is one. -/
def charDigit10 (c : Char) : Option Nat :=
  if 48 ≤ c.toNat && c.toNat ≤ 57 then some (c.toNat - 48) else none

/-- Value of a little-endian digit list. -/
def valOfDigitsRev : List Nat → Nat
  | [] => 0
  | d :: ds => d + 10 * valOfDigitsRev ds

/-- Injective textual rendering of a timeline position, standing in for
chrono's `to_rfc3339` (which renders a `DateTime<Utc>` injectively). -/
def tsRender (t : Nat) : String :=
  if t = 0 then String.mk ['0']
  else String.mk (((decDigitsRev t).map digitChar10).reverse)

/-- Parse every character as a decimal digit. -/
def parseDigitChars : List Char → Option (List Nat)
  | [] => some []
  | c :: cs =>
    match charDigit10 c, parseDigitChars cs with
    | some d, some ds => some (d :: ds)
    | _, _ => none

/-- Exact parser for `tsRender`, standing in for chrono's
`parse_from_rfc3339`. -/
def tsParse (s : String) : Option Nat :=
  if s.data.isEmpty then none
  else
    match parseDigitChars s.data with
    | some ds => some (valOfDigitsRev ds.reverse)
    | none => none

/-- JSON values, as far as the metadata record uses them: the record
serializes to an object of string fields (`serde_json::Value` restricted to
this fragment). -/
inductive Json
  | str (s : String)
  | nul
  | obj (fields : List (String × Json))
deriving Repr

mutual

/-- Structural decidable equality for `Json`. -/
def Json.decEq : (a b : Json) → Decidable (a = b)
  | .str x, .str y =>
    match String.decEq x y with
    | isTrue h => isTrue (by rw [h])
    | isFalse h => isFalse (fun he => h (by cases he; rfl))
  | .str _, .nul => isFalse (fun h => Json.noConfusion h)
  | .str _, .obj _ => isFalse (fun h => Json.noConfusion h)
  | .nul, .str _ => isFalse (fun h => Json.noConfusion h)
  | .nul, .nul => isTrue rfl
  | .nul, .obj _ => isFalse (fun h => Json.noConfusion h)
  | .obj _, .str _ => isFalse (fun h => Json.noConfusion h)
  | .obj _, .nul => isFalse (fun h => Json.noConfusion h)
  | .obj xs, .obj ys =>
    match Json.decEqFields xs ys with
    | isTrue h => isTrue (by rw [h])
    | isFalse h => isFalse (fun he => h (by cases he; rfl))

/-- Structural decidable equality for `Json` object field lists. -/
def Json.decEqFields :
    (a b : List (String × Json)) → Decidable (a = b)
  | [], [] => isTrue rfl
  | [], _ :: _ => isFalse (fun h => List.noConfusion h)
  | _ :: _, [] => isFalse (fun h => List.noConfusion h)
  | (k1, v1) :: r1, (k2, v2) :: r2 =>
    match String.decEq k1 k2, Json.decEq v1 v2, Json.decEqFields r1 r2 with
    | isTrue hk, isTrue hv, isTrue hr => isTrue (by rw [hk, hv, hr])
    | isFalse hk, _, _ => isFalse (fun he => by cases he; exact hk rfl)
    | _, isFalse hv, _ => isFalse (fun he => by cases he; exact hv rfl)
    | _, _, isFalse hr => isFalse (fun he => by cases he; exact hr rfl)

end

instance : DecidableEq Json := Json.decEq

/-- First field of a JSON object with the given key (`serde` field lookup;
later duplicates are ignored, unknown fields are skipped). -/
def jlookup (key : String) : List (String × Json) → Option Json
  | [] => none
  | (k, v) :: rest => if k = key then some v else jlookup key rest

/-- The metadata record, from `src/task.rs` (`TaskMetadata`).
`created_at`/`updated_at` are timeline positions (see `tsRender`). -/
structure TaskMetadata where
  id : String
  title : Option String
  state : TaskState
  created_at : Nat
  updated_at : Nat
  last_result : Option String
  initial_prompt : Option String
  last_prompt : Option String
  config_path : Option String
  working_dir : Option String
deriving DecidableEq, Repr

/-- `TaskMetadata::new` (timestamps come from `Utc::now()`, passed in). -/
def TaskMetadata.new (id : String) (title : Option String) (state : TaskState)
    (now : Nat) : TaskMetadata :=
  { id := id, title := title, state := state, created_at := now,
    updated_at := now, last_result := none, initial_prompt := none,
    last_prompt := none, config_path := none, working_dir := none }

/-- `TaskMetadata::set_state`: set the state and refresh `updated_at`
(`touch` runs unconditionally). -/
def TaskMetadata.setState (m : TaskMetadata) (s : TaskState) (now : Nat) :
    TaskMetadata :=
  { m with state := s, updated_at := now }

/-- Optional string field, present only when `some` (serde
`skip_serializing_if = "Option::is_none"`). -/
def optField (key : String) : Option String → List (String × Json)
  | none => []
  | some v => [(key, Json.str v)]

/-- Serialization of `TaskMetadata`, following the serde derive on
`src/task.rs`: declaration order, optional fields skipped when absent,
datetimes through `serde_datetime::serialize` (an RFC3339 string). -/
def encodeMetadata (m : TaskMetadata) : Json :=
  Json.obj
    ([("id", Json.str m.id)] ++ optField "title" m.title ++
      [("state", Json.str m.state.asStr),
        ("created_at", Json.str (tsRender m.created_at)),
        ("updated_at", Json.str (tsRender m.updated_at))] ++
      optField "last_result" m.last_result ++
      optField "initial_prompt" m.initial_prompt ++
      optField "last_prompt" m.last_prompt ++
      optField "config_path" m.config_path ++
      optField "working_dir" m.working_dir)

/-- Decode a required string field. -/
def getStrField (fields : List (String × Json)) (key : String) :
    Option String :=
  match jlookup key fields with
  | some (Json.str s) => some s
  | _ => none

/-- Decode an optional string field (serde `default`: absent or `null`
becomes `None`). -/
def getOptStrField (fields : List (String × Json)) (key : String) :
    Option (Option String) :=
  match jlookup key fields with
  | none => some none
  | some Json.nul => some none
  | some (Json.str s) => some (some s)
  | some (Json.obj _) => none

/-- Deserialization of `TaskMetadata`, following the serde derive: required
fields must be present and well-typed, optional fields default to `None`,
unknown fields are ignored. -/
def decodeMetadata (j : Json) : Option TaskMetadata :=
  match j with
  | Json.obj fields =>
    match getStrField fields "id", getStrField fields "state",
        getStrField fields "created_at", getStrField fields "updated_at" with
    | some id, some stateStr, some createdStr, some updatedStr =>
      match taskStateFromStr stateStr, tsParse createdStr,
          tsParse updatedStr with
      | some state, some created, some updated =>
        match getOptStrField fields "title",
            getOptStrField fields "last_result",
            getOptStrField fields "initial_prompt",
            getOptStrField fields "last_prompt",
            getOptStrField fields "config_path",
            getOptStrField fields "working_dir" with
        | some title, some lastResult, some initialPrompt, some lastPrompt,
            some configPath, some workingDir =>
          some
            { id := id, title := title, state := state,
              created_at := created, updated_at := updated,
              last_result := lastResult, initial_prompt := initialPrompt,
              last_prompt := lastPrompt, config_path := configPath,
              working_dir := workingDir }
        | _, _, _, _, _, _ => none
      | _, _, _ => none
    | _, _, _, _ => none
  | _ => none

/-- Errors surfaced by the store and service layer. `notFound` models an
`io::Error` of kind `NotFound` (which callers downcast and branch on);
`msg` models an `anyhow` error built with `bail!`/`ensure!`/`context`. -/
inductive StoreError
  | notFound
  | msg (text : String)
deriving DecidableEq, Repr

/-- One task directory (`<root>/<task_id>/`), as a record of its files
(`src/tasks/store.rs` filenames): `task.json` holds a JSON value (metadata
writes go through `serde_json`), `task.pid` holds a parsed PID,
`task.pipe` is the FIFO, `task.log` the line log, `task.result` the last
result text. An absent file is `none`/`false`. -/
structure TaskDir where
  metaFile : Option Json
  pidFile : Option Int
  pipeFile : Bool
  logFile : Option (List String)
  resultFile : Option String
deriving Repr

/-- A directory with no files yet. -/
def TaskDir.empty : TaskDir :=
  { metaFile := none, pidFile := none, pipeFile := false, logFile := none,
    resultFile := none }

/-- `TaskPaths::read_metadata` (src/tasks/store.rs): read `task.json`
(missing file is an io `NotFound`), parse it, and enforce that the record's
`id` names the directory. -/
def read_metadata (d : TaskDir) (taskId : String) :
    Except StoreError TaskMetadata :=
  match d.metaFile with
  | none => .error .notFound
  | some j =>
    match decodeMetadata j with
    | none => .error (.msg ("failed to parse metadata for task " ++ taskId))
    | some m =>
      if m.id = taskId then .ok m
      else
        .error (.msg ("metadata id " ++ m.id ++ " does not match path " ++
          taskId))

/-- `TaskPaths::write_metadata` (src/tasks/store.rs): reject an id that
disagrees with the directory, serialize, then atomically replace
`task.json` (temp file + `fsync` + `rename`, modelled as one update). -/
def write_metadata (m : TaskMetadata) (d : TaskDir) (taskId : String) :
    Except StoreError TaskDir :=
  if m.id = taskId then .ok { d with metaFile := some (encodeMetadata m) }
  else
    .error (.msg ("metadata id " ++ m.id ++ " does not match path " ++
      taskId))

/-- `TaskPaths::update_metadata`: read, mutate, write back. -/
def update_metadata (d : TaskDir) (taskId : String)
    (f : TaskMetadata → TaskMetadata) : Except StoreError TaskDir :=
  match read_metadata d taskId with
  | .error e => .error e
  | .ok m => write_metadata (f m) d taskId

/-- Outcome of `libc::kill(pid, 0)`: success, or an error with
`raw_os_error()` (`none` when the error carries no raw code). -/
inductive KillResult
  | success
  | failure (errno : Option Int)
deriving DecidableEq, Repr

/-- `libc::ESRCH` (no such process). -/
def ESRCH : Int := 3

/-- `libc::EPERM` (operation not permitted). -/
def EPERM : Int := 1

/-- `is_process_running` from `src/commands/common.rs`: PIDs `≤ 0` are not
alive without probing; otherwise send the null signal and map `ESRCH` to
not alive, `EPERM` to alive, and propagate anything else. -/
def common_is_process_running (pid : Int) (kill : Int → KillResult) :
    Except StoreError Bool :=
  if pid ≤ 0 then .ok false
  else
    match kill pid with
    | .success => .ok true
    | .failure e =>
      if e = some ESRCH then .ok false
      else if e = some EPERM then .ok true
      else
        .error (.msg "failed to query status of process")

/-- The private `is_process_running` in `src/tasks/status.rs`: send the null
signal to the PID (no guard on `pid ≤ 0`); success or `EPERM` is alive,
every other outcome — `ESRCH`, a missing raw code, or any other errno — is
reported as not alive. -/
def status_is_process_running (pid : Int) (kill : Int → KillResult) : Bool :=
  match kill pid with
  | .success => true
  | .failure e =>
    match e with
    | some c => if c = EPERM then true else false
    | none => false

/-- `derive_state_without_pid` (src/tasks/status.rs). -/
def derive_state_without_pid : TaskState → TaskState
  | .running => .died
  | other => other

/-- `derive_active_state` (src/tasks/status.rs): combine the stored state
with the recorded PID, probing liveness with the module's own probe. -/
def derive_active_state (metadataState : TaskState) (pid : Option Int)
    (kill : Int → KillResult) : TaskState :=
  match pid with
  | some p =>
    if status_is_process_running p kill then
      match metadataState with
      | .running => .running
      | .stopped => .stopped
      | .archived => .archived
      | .died => .running
    else derive_state_without_pid metadataState
  | none => derive_state_without_pid metadataState

/-- The derivation table of spec §4.2 / claim C2, transcribed from the
claim's words (not from the source) for comparison with
`derive_active_state`. -/
def claimDerivationTable (stored : TaskState) (pidPresent alive : Bool) :
    TaskState :=
  match stored, pidPresent, alive with
  | .running, true, true => .running
  | .running, _, _ => .died
  | .stopped, _, _ => .stopped
  | .archived, _, _ => .archived
  | .died, true, true => .running
  | .died, _, _ => .died

/-- Liveness of an optional recorded PID under the derivation module's
probe (`false` when no PID is recorded). -/
def aliveOf (pid : Option Int) (kill : Int → KillResult) : Bool :=
  match pid with
  | some p => status_is_process_running p kill
  | none => false

/-- Lookup of a task directory by name in an association list (the active
store root, one level deep). -/
def findDir (dirs : List (String × TaskDir)) (tid : String) :
    Option TaskDir :=
  match dirs with
  | [] => none
  | (k, d) :: rest => if k = tid then some d else findDir rest tid

/-- Replace (or add) the directory bound to `tid`. -/
def setDir (dirs : List (String × TaskDir)) (tid : String) (d : TaskDir) :
    List (String × TaskDir) :=
  match dirs with
  | [] => [(tid, d)]
  | (k, d0) :: rest =>
    if k = tid then (k, d) :: rest else (k, d0) :: setDir rest tid d

/-- Remove the directory bound to `tid` (directory-level `rename` away). -/
def removeDir (dirs : List (String × TaskDir)) (tid : String) :
    List (String × TaskDir) :=
  match dirs with
  | [] => []
  | (k, d0) :: rest =>
    if k = tid then rest else (k, d0) :: removeDir rest tid

/-- `WorkerLaunchRequest` (src/worker/launcher.rs). The prompt and title
travel to the worker through environment variables; the rest are CLI
arguments of the hidden `worker` subcommand. -/
structure WorkerLaunchRequest where
  storeRoot : String
  taskId : Option String
  title : Option String
  prompt : String
  configPath : Option String
  workingDir : Option String
deriving DecidableEq, Repr

/-- Externally visible actions of the service layer. `spawnWorker` is
`spawn_worker` (launching the detached worker process); the two FIFO
constructors express the prompt-over-FIFO delivery that spec §4.5 claims
(opening `task.pipe` for writing, writing bytes onto it) so that claims
about it can be stated — the service code under verification never emits
them. -/
inductive Effect
  | spawnWorker (req : WorkerLaunchRequest)
  | openFifoWrite (taskId : String)
  | fifoWrite (taskId : String) (payload : String)
deriving DecidableEq, Repr

/-- One directory under `archive/`: its bucket (`YYYY/MM/DD` path), its
final path component, whether it is a directory (the BFS of
`find_archived_task` only matches directories, but a plain file still makes
the destination path exist), and its files. -/
structure ArchiveEntry where
  bucket : String
  name : String
  isDir : Bool
  dir : TaskDir
deriving Repr

/-- The task store (`TaskStore`): its root path, the active task
directories (one level deep), and the archive tree flattened in BFS
order. -/
structure StoreState where
  root : String
  active : List (String × TaskDir)
  archive : List ArchiveEntry
deriving Repr

/-- `TaskStore::find_archived_task` (src/tasks/store.rs): BFS over
`archive/` for the first directory whose final path component equals the
task id, then read its metadata (read errors propagate). The list is the
BFS visit order. -/
def findArchivedTask (archive : List ArchiveEntry) (tid : String) :
    Except StoreError (Option TaskMetadata) :=
  match archive with
  | [] => .ok none
  | e :: rest =>
    if e.isDir && e.name == tid then
      match read_metadata e.dir tid with
      | .ok m => .ok (some m)
      | .error err => .error err
    else findArchivedTask rest tid

/-- `TaskStore::load_metadata`: read the metadata of an active task (a
missing directory or missing `task.json` is an io `NotFound`). -/
def load_metadata (st : StoreState) (tid : String) :
    Except StoreError TaskMetadata :=
  match findDir st.active tid with
  | none => .error .notFound
  | some d => read_metadata d tid

/-- The resume launch request built by `send_prompt`
(src/tasks/service.rs lines 140-148). -/
def mkResumeRequest (root : String) (m : TaskMetadata) (prompt : String) :
    WorkerLaunchRequest :=
  { storeRoot := root, taskId := some m.id, title := m.title,
    prompt := prompt, configPath := m.config_path,
    workingDir := m.working_dir }

/-- The archive fallback of `send_prompt` when the active metadata read
reports `NotFound` (src/tasks/service.rs lines 104-117). -/
def sendPromptArchiveFallback (st : StoreState) (taskId : String) :
    (Except StoreError Unit) × StoreState × List Effect :=
  match findArchivedTask st.archive taskId with
  | .error e => (.error e, st, [])
  | .ok (some am) =>
    (.error (.msg ("task " ++ am.id ++
      " is ARCHIVED and cannot receive prompts")), st, [])
  | .ok none => (.error (.msg ("task " ++ taskId ++ " was not found")), st, [])

/-- The tail of `send_prompt`: build the resume request and launch a fresh
worker (src/tasks/service.rs lines 140-156). -/
def sendPromptSpawn (st : StoreState) (m : TaskMetadata) (prompt : String) :
    (Except StoreError Unit) × StoreState × List Effect :=
  (.ok (), st, [.spawnWorker (mkResumeRequest st.root m prompt)])

/-- `TaskService::send_prompt` (src/tasks/service.rs lines 94-157; the CLI
`handle_send` in src/commands/send.rs lines 13-83 is the same algorithm).
Rejects blank prompts; refuses `ARCHIVED`/`DIED` (and archive-only) tasks;
refuses a task whose recorded PID is alive; removes a stale PID file; then
relaunches a worker carrying the prompt. The result triple is
(result, final store state, emitted effects). -/
def send_prompt (st : StoreState) (kill : Int → KillResult)
    (taskId prompt : String) :
    (Except StoreError Unit) × StoreState × List Effect :=
  if promptBlank prompt then
    (.error (.msg "prompt must not be empty"), st, [])
  else
    match findDir st.active taskId with
    | none => sendPromptArchiveFallback st taskId
    | some d =>
      match read_metadata d taskId with
      | .error .notFound => sendPromptArchiveFallback st taskId
      | .error e => (.error e, st, [])
      | .ok m =>
        if m.state = .archived then
          (.error (.msg ("task " ++ m.id ++
            " is ARCHIVED and cannot receive prompts")), st, [])
        else if m.state = .died then
          (.error (.msg ("task " ++ m.id ++
            " has DIED and cannot receive prompts")), st, [])
        else
          match d.pidFile with
          | some pid =>
            match common_is_process_running pid kill with
            | .error e => (.error e, st, [])
            | .ok true =>
              (.error (.msg ("task " ++ m.id ++
                " is currently running; wait for completion or stop it first")),
                st, [])
            | .ok false =>
              sendPromptSpawn
                { st with
                  active := setDir st.active taskId { d with pidFile := none } }
                m prompt
          | none => sendPromptSpawn st m prompt

/-- Parameters of `TaskService::start_task`. -/
structure StartTaskParams where
  title : Option String
  prompt : String
  configFile : Option String
  workingDir : Option String
  repoUrl : Option String
  repoRef : Option String
deriving Repr

/-- Environment-mediated outcomes inside `start_task`:
`resolve_config_file` (canonicalization + `config.toml` name check),
`prepare_working_directory` (git clone / directory creation /
canonicalization), the current directory, the `spawn_worker` call and the
`receive_thread_id` handshake read. Each is injected as the outcome the
filesystem/launcher produced. -/
structure StartEnv where
  configResolution : Except StoreError (Option String)
  workingDirPrep : Except StoreError (Option String)
  cwd : String
  spawnResult : Except StoreError Unit
  handshake : Except StoreError String
deriving Repr

/-- `TaskService::start_task` (src/tasks/service.rs lines 53-91): the blank
prompt check comes first, before `ensure_layout`, path resolution and the
worker launch; the working directory defaults to the current directory. -/
def start_task (st : StoreState) (env : StartEnv) (p : StartTaskParams) :
    (Except StoreError String) × List Effect :=
  if promptBlank p.prompt then
    (.error (.msg "prompt must not be empty"), [])
  else
    match env.configResolution with
    | .error e => (.error e, [])
    | .ok configFile =>
      match env.workingDirPrep with
      | .error e => (.error e, [])
      | .ok wd0 =>
        let req : WorkerLaunchRequest :=
          { storeRoot := st.root, taskId := none, title := p.title,
            prompt := p.prompt, configPath := configFile,
            workingDir := some (wd0.getD env.cwd) }
        match env.spawnResult with
        | .error _ => (.error (.msg "failed to launch worker process"), [])
        | .ok _ =>
          match env.handshake with
          | .error e => (.error e, [.spawnWorker req])
          | .ok tid => (.ok tid, [.spawnWorker req])

/-- `StopOutcome` (src/tasks/service.rs). -/
inductive StopOutcome
  | alreadyStopped
  | stopped
deriving DecidableEq, Repr

/-- `mark_task_state` (src/tasks/service.rs lines 834-844): update the
metadata state, treating a missing metadata file as success. -/
def mark_task_state (d : TaskDir) (taskId : String) (s : TaskState)
    (now : Nat) : Except StoreError TaskDir :=
  match update_metadata d taskId (fun m => m.setState s now) with
  | .ok d' => .ok d'
  | .error .notFound => .ok d
  | .error e => .error e

/-- `stop_task_paths` (src/tasks/service.rs lines 758-775). No PID file or
a dead PID short-circuits to `AlreadyStopped`; a live PID is signalled
`SIGTERM` and awaited (`wait_for_worker_shutdown`, a real-time poll loop
with `SIGKILL` escalation, is injected as `waitOutcome`), after which the
PID file is removed and the state marked `STOPPED`. -/
def stop_task_paths (d : TaskDir) (taskId : String)
    (kill : Int → KillResult) (waitOutcome : Except StoreError Unit)
    (now : Nat) : (Except StoreError StopOutcome) × TaskDir :=
  match d.pidFile with
  | none => (.ok .alreadyStopped, d)
  | some pid =>
    match common_is_process_running pid kill with
    | .error e => (.error e, d)
    | .ok false => (.ok .alreadyStopped, { d with pidFile := none })
    | .ok true =>
      match waitOutcome with
      | .error e => (.error e, d)
      | .ok _ =>
        let d1 := { d with pidFile := none }
        match mark_task_state d1 taskId .stopped now with
        | .ok d2 => (.ok .stopped, d2)
        | .error e => (.error e, d1)

/-- Outcome of archiving one task (src/tasks/service.rs). -/
inductive ArchiveTaskOutcome
  | archived (id : String) (destination : String)
  | alreadyArchived (id : String)
deriving DecidableEq, Repr

/-- Display form of the archive destination
`<root>/archive/<YYYY/MM/DD>/<id>`. -/
def destDisplay (root bucket id : String) : String :=
  root ++ "/archive/" ++ bucket ++ "/" ++ id

/-- `destination.exists()`: any entry (directory or plain file) already at
the destination path. -/
def destExists (archive : List ArchiveEntry) (bucket name : String) : Bool :=
  archive.any (fun e => e.bucket == bucket && e.name == name)

/-- The refusal message for archiving a running task. -/
def archiveRunningMsg (id : String) : String :=
  "task " ++ id ++ " is RUNNING; stop it before archiving"

/-- Final phase of `archive_task_inner` (lines 436-465): remove the PID and
pipe artifacts, rewrite the metadata as `ARCHIVED` with a fresh timestamp,
refuse an existing destination, and rename the directory into the
bucket. -/
def archiveFinish (st : StoreState) (d : TaskDir) (m : TaskMetadata)
    (taskId : String) (now : Nat) (nowBucket : String) :
    (Except StoreError ArchiveTaskOutcome) × StoreState :=
  let d2 := { d with pidFile := none, pipeFile := false }
  let m2 := { m with state := .archived, updated_at := now }
  match write_metadata m2 d2 taskId with
  | .error e =>
    (.error e, { st with active := setDir st.active taskId d2 })
  | .ok d3 =>
    let st3 := { st with active := setDir st.active taskId d3 }
    if destExists st.archive nowBucket m2.id then
      (.error (.msg ("archive destination " ++
        destDisplay st.root nowBucket m2.id ++ " already exists for task " ++
        m2.id)), st3)
    else
      let entry : ArchiveEntry :=
        { bucket := nowBucket, name := m2.id, isDir := true, dir := d3 }
      let stDone : StoreState :=
        { root := st3.root, active := removeDir st3.active taskId,
          archive := st3.archive ++ [entry] }
      (.ok (.archived m2.id (destDisplay st.root nowBucket m2.id)), stDone)

/-- Middle phase of `archive_task_inner` (lines 426-434): refuse a task
whose derived state is `RUNNING`, then double-check the recorded PID with
the service-level probe. -/
def archivePidGate (st : StoreState) (d : TaskDir) (m : TaskMetadata)
    (pid : Option Int) (derived : TaskState) (kill : Int → KillResult)
    (taskId : String) (now : Nat) (nowBucket : String) :
    (Except StoreError ArchiveTaskOutcome) × StoreState :=
  if derived = .running then (.error (.msg (archiveRunningMsg m.id)), st)
  else
    match pid with
    | some p =>
      match common_is_process_running p kill with
      | .error e => (.error e, st)
      | .ok true => (.error (.msg (archiveRunningMsg m.id)), st)
      | .ok false => archiveFinish st d m taskId now nowBucket
    | none => archiveFinish st d m taskId now nowBucket

/-- `archive_task_inner` (src/tasks/service.rs lines 400-466). A task
already locatable in the archive is `AlreadyArchived`; a missing task is an
error; the stored state is reconciled with the derivation (persisting a
change) before the `RUNNING` refusal; then the final phase archives the
directory. -/
def archive_task_inner (st : StoreState) (kill : Int → KillResult)
    (now : Nat) (nowBucket : String) (taskId : String) :
    (Except StoreError ArchiveTaskOutcome) × StoreState :=
  match findArchivedTask st.archive taskId with
  | .error e => (.error e, st)
  | .ok (some am) => (.ok (.alreadyArchived am.id), st)
  | .ok none =>
    match findDir st.active taskId with
    | none => (.error (.msg ("task " ++ taskId ++ " was not found")), st)
    | some d =>
      match read_metadata d taskId with
      | .error .notFound =>
        (.error (.msg ("task " ++ taskId ++ " was not found")), st)
      | .error e => (.error e, st)
      | .ok m =>
        let pid := d.pidFile
        let derived := derive_active_state m.state pid kill
        if m.state = derived then
          archivePidGate st d m pid derived kill taskId now nowBucket
        else
          let m1 := m.setState derived now
          match write_metadata m1 d taskId with
          | .error e => (.error e, st)
          | .ok d1 =>
            archivePidGate
              { st with active := setDir st.active taskId d1 }
              d1 m1 pid derived kill taskId now nowBucket

/-- Worker configuration (`WorkerConfig`, src/worker/child.rs), plus the
worker's own process id (`std::process::id`) and the clock. -/
structure WorkerCfg where
  storeRoot : String
  title : Option String
  initialPrompt : String
  configPath : Option String
  workingDir : Option String
  pid : Int
  nowTs : Nat
deriving Repr

/-- One line produced by the assistant subprocess, in arrival order.
For stdout lines, `threadStarted` is the (precomputed) result of
`try_extract_thread_id` on the text: the `thread_id` of a
`thread.started` JSON event, or `none`. -/
inductive WLine
  | out (text : String) (threadStarted : Option String)
  | err (text : String)
deriving DecidableEq, Repr

/-- Environment-mediated outcomes of one assistant invocation
(`run_invocation`): whether `command.spawn()` succeeded, the line stream,
the outcomes of opening the log, creating the FIFO (`create_pipe`) and
opening the prompt reader inside `initialize_session` (see
`worker_init_session`), the child's exit status, and the contents of the
`--output-last-message` file if the assistant produced one. -/
structure InvEnv where
  spawnOk : Bool
  events : List WLine
  logOpenOk : Bool
  mkfifoOk : Bool
  pipeOpenOk : Bool
  exitOk : Bool
  resultContent : Option String
deriving Repr

/-- `InvocationKind` (src/worker/child.rs). -/
inductive InvocationKind
  | first
  | resume
deriving DecidableEq, Repr

/-- Worker-visible state: the current session (by thread id — the session's
log writer and prompt reader live in the task directory entry) and the task
directories under the store root that the worker touched. -/
structure WState where
  session : Option String
  dirs : List (String × TaskDir)
deriving Repr

/-- Externally visible actions of the worker: spawning `codex exec`
(optionally `resume <thread>`), and printing the handshake line. -/
inductive WEff
  | spawnCodex (resumeThread : Option String) (prompt : String)
  | handshake (threadId : String)
deriving DecidableEq, Repr

/-- Append one line to a task's log (a buffered write of the session's log
writer; flushing is a no-op in the model). -/
def appendLog (w : WState) (t line : String) : WState :=
  match findDir w.dirs t with
  | none => w
  | some d =>
    { w with
      dirs := setDir w.dirs t
        ({ d with logFile := some ((d.logFile.getD []) ++ [line]) }) }

/-- Read-modify-write of a task's metadata through the store
(`TaskPaths::update_metadata` as invoked by the worker). -/
def updateDirMeta (w : WState) (t : String)
    (f : TaskMetadata → TaskMetadata) : Except StoreError WState :=
  match findDir w.dirs t with
  | none => .error .notFound
  | some d =>
    match update_metadata d t f with
    | .error e => .error e
    | .ok d' => .ok { w with dirs := setDir w.dirs t d' }

/-- `Worker::initialize_session` (src/worker/child.rs lines 361-423), in
program order: create the task directory, write `task.pid`, write
`task.json` (state `RUNNING`, the prompt as initial and last prompt), open
the log and flush the buffered stdout then stderr lines (stderr lines
prefixed with the `[stderr] ` tag), create the FIFO, open the prompt
reader, print the handshake. Each failure aborts with the writes made so
far still on disk. -/
def worker_init_session (cfg : WorkerCfg) (env : InvEnv) (w : WState)
    (t prompt : String) (bufOut bufErr : List String) :
    (Except StoreError Unit) × WState × List WEff :=
  let d0 := (findDir w.dirs t).getD TaskDir.empty
  let d1 := { d0 with pidFile := some cfg.pid }
  let w1 := { w with dirs := setDir w.dirs t d1 }
  let m0 := TaskMetadata.new t cfg.title .running cfg.nowTs
  let m :=
    { m0 with initial_prompt := some prompt, last_prompt := some prompt }
  match write_metadata m d1 t with
  | .error e => (.error e, w1, [])
  | .ok d2 =>
    let w2 := { w1 with dirs := setDir w1.dirs t d2 }
    if env.logOpenOk then
      let logged :=
        (d2.logFile.getD []) ++ bufOut ++
          bufErr.map (fun s => "[stderr] " ++ s)
      let d3 := { d2 with logFile := some logged }
      let w3 := { w2 with dirs := setDir w2.dirs t d3 }
      if env.mkfifoOk then
        let d4 := { d3 with pipeFile := true }
        let w4 := { w3 with dirs := setDir w3.dirs t d4 }
        if env.pipeOpenOk then
          (.ok (), { w4 with session := some t }, [.handshake t])
        else
          (.error (.msg ("failed to initialize prompt reader for " ++ t)),
            w4, [])
      else
        (.error (.msg ("failed to create prompt pipe for " ++ t)), w3, [])
    else
      (.error (.msg ("failed to open log file for task " ++ t)), w2, [])

/-- The worker's event loop over the assistant's interleaved stdout/stderr
lines (`handle_stdout_line` / `handle_stderr_line`): before a session
exists lines are buffered; the first `thread.started` stdout line triggers
`worker_init_session` (which drains the buffers); afterwards every line is
appended to the log, stderr lines tagged. -/
def worker_proc_events (cfg : WorkerCfg) (env : InvEnv) (prompt : String) :
    List WLine → WState → List String → List String →
    (Except StoreError Unit) × WState × List WEff
  | [], w, _, _ => (.ok (), w, [])
  | line :: rest, w, bufOut, bufErr =>
    match line with
    | .err text =>
      match w.session with
      | some t =>
        worker_proc_events cfg env prompt rest
          (appendLog w t ("[stderr] " ++ text)) bufOut bufErr
      | none =>
        worker_proc_events cfg env prompt rest w bufOut (bufErr ++ [text])
    | .out text started =>
      match started, w.session with
      | some t, none =>
        match worker_init_session cfg env w t prompt bufOut bufErr with
        | (.error e, w', effs) => (.error e, w', effs)
        | (.ok _, w', effs) =>
          let w2 :=
            match w'.session with
            | some tid => appendLog w' tid text
            | none => w'
          let r := worker_proc_events cfg env prompt rest w2 [] []
          (r.1, r.2.1, effs ++ r.2.2)
      | _, _ =>
        match w.session with
        | some tid =>
          worker_proc_events cfg env prompt rest (appendLog w tid text)
            bufOut bufErr
        | none =>
          worker_proc_events cfg env prompt rest w (bufOut ++ [text]) bufErr

/-- `Worker::run_invocation` (src/worker/child.rs lines 170-324): reject a
blank prompt; if a session exists, persist state `RUNNING` and the new
`last_prompt`; build the `codex exec` command (plain for the first
invocation, `resume <thread>` afterwards — the mismatched combinations
bail); spawn it; stream its lines; require an established session; persist
the exit state (`STOPPED` on success, `DIED` on a nonzero exit) and the
last result if one was produced; surface a nonzero exit as an error. -/
def worker_run_invocation (cfg : WorkerCfg) (env : InvEnv) (w : WState)
    (prompt : String) (kind : InvocationKind) :
    (Except StoreError Unit) × WState × List WEff :=
  if promptBlank prompt then
    (.error (.msg "prompt must not be empty"), w, [])
  else
    let afterMeta : Except StoreError WState :=
      match w.session with
      | some t =>
        updateDirMeta w t
          (fun m => { m.setState .running cfg.nowTs with
            last_prompt := some prompt })
      | none => .ok w
    match afterMeta with
    | .error e => (.error e, w, [])
    | .ok w1 =>
      match w1.session, kind with
      | none, .resume =>
        (.error (.msg "cannot resume before establishing a Codex thread"),
          w1, [])
      | some _, .first =>
        (.error (.msg "initial invocation already performed for this worker"),
          w1, [])
      | sess, _ =>
        let spawnEff := WEff.spawnCodex sess prompt
        if env.spawnOk then
          match worker_proc_events cfg env prompt env.events w1 [] [] with
          | (.error e, w2, effs) => (.error e, w2, spawnEff :: effs)
          | (.ok _, w2, effs) =>
            match w2.session with
            | none =>
              (.error (.msg "Codex thread was not established before process exit"),
                w2, spawnEff :: effs)
            | some t =>
              let exitState : TaskState :=
                if env.exitOk then .stopped else .died
              match updateDirMeta w2 t
                  (fun m => { m.setState exitState cfg.nowTs with
                    last_prompt := some prompt }) with
              | .error e => (.error e, w2, spawnEff :: effs)
              | .ok w3 =>
                let afterResult : Except StoreError WState :=
                  match env.resultContent, findDir w3.dirs t with
                  | some msgText, some d =>
                    let dRes := { d with resultFile := some msgText }
                    let w4 := { w3 with dirs := setDir w3.dirs t dRes }
                    updateDirMeta w4 t
                      (fun m => { m with last_result := some msgText })
                  | _, _ => .ok w3
                match afterResult with
                | .error e => (.error e, w3, spawnEff :: effs)
                | .ok w5 =>
                  if env.exitOk then (.ok (), w5, spawnEff :: effs)
                  else
                    (.error (.msg "codex exec failed with status"), w5,
                      spawnEff :: effs)
        else
          (.error (.msg "failed to spawn `codex exec`"), w1, [spawnEff])

/-- `Worker::shutdown` (src/worker/child.rs lines 425-455): mark the task
`STOPPED`, remove the FIFO and the PID file; every failure is only logged
to stderr and ignored. -/
def worker_shutdown (cfg : WorkerCfg) (w : WState) : WState :=
  match w.session with
  | none => w
  | some t =>
    let w1 :=
      match updateDirMeta w t (fun m => m.setState .stopped cfg.nowTs) with
      | .ok w' => w'
      | .error _ => w
    let w2 :=
      match findDir w1.dirs t with
      | some d =>
        let dClean := { d with pipeFile := false, pidFile := none }
        { w1 with dirs := setDir w1.dirs t dClean }
      | none => w1
    { w2 with session := none }

/-- The worker's FIFO prompt loop (`Worker::run`, lines 142-166): each
script entry is one line read from the FIFO paired with the invocation
outcomes its resume run would see. Blank lines are skipped, a trimmed
`/quit` breaks the loop; the real loop only ends through `/quit` (the FIFO
is reopened on EOF), so the model's script ends where the operator quits. -/
def worker_prompt_loop (cfg : WorkerCfg) :
    List (String × InvEnv) → WState →
    (Except StoreError Unit) × WState × List WEff
  | [], w => (.ok (), w, [])
  | (p, e) :: rest, w =>
    if promptBlank p then worker_prompt_loop cfg rest w
    else if rustTrim p = "/quit" then (.ok (), w, [])
    else
      match worker_run_invocation cfg e w p .resume with
      | (.error err, w', effs) => (.error err, w', effs)
      | (.ok _, w', effs) =>
        let r := worker_prompt_loop cfg rest w'
        (r.1, r.2.1, effs ++ r.2.2)

/-- `run_worker` (src/worker/child.rs lines 103-110) plus `Worker::run`:
when `CODEX_TASKS_EXIT_AFTER_START` is set (`should_exit_after_start`),
return success immediately — before `Worker::new`, before any file is
written and before anything is spawned. Otherwise run the initial
invocation, serve the FIFO script, and shut down. -/
def run_worker (exitAfterStart : Bool) (cfg : WorkerCfg) (inv : InvEnv)
    (script : List (String × InvEnv)) :
    (Except StoreError Unit) × WState × List WEff :=
  if exitAfterStart then (.ok (), { session := none, dirs := [] }, [])
  else
    let w0 : WState := { session := none, dirs := [] }
    match worker_run_invocation cfg inv w0 cfg.initialPrompt .first with
    | (.error e, w1, effs) => (.error e, w1, effs)
    | (.ok _, w1, effs) =>
      let r := worker_prompt_loop cfg script w1
      match r.1 with
      | .error e => (.error e, r.2.1, effs ++ r.2.2)
      | .ok _ => (.ok (), worker_shutdown cfg r.2.1, effs ++ r.2.2)

theorem charDigit10_digitChar10 (d : Nat) (hd : d < 10) :
    charDigit10 (digitChar10 d) = some d := by
  interval_cases d <;> rfl

theorem decDigitsRevAux_lt_ten :
    ∀ fuel n d, d ∈ decDigitsRevAux fuel n → d < 10 := by
  intro fuel
  induction fuel with
  | zero => intro n d h; simp [decDigitsRevAux] at h
  | succ f ih =>
    intro n d h
    by_cases hn : n = 0
    · simp [decDigitsRevAux, hn] at h
    · simp only [decDigitsRevAux, if_neg hn, List.mem_cons] at h
      rcases h with h | h
      · subst h; exact Nat.mod_lt _ (by norm_num)
      · exact ih _ _ h

theorem valOfDigitsRev_decDigitsRevAux :
    ∀ fuel n, n ≤ fuel → valOfDigitsRev (decDigitsRevAux fuel n) = n := by
  intro fuel
  induction fuel with
  | zero => intro n h; interval_cases n; rfl
  | succ f ih =>
    intro n h
    by_cases hn : n = 0
    · simp [decDigitsRevAux, hn, valOfDigitsRev]
    · have hdiv : n / 10 ≤ f := by
        have h1 : n / 10 < n := Nat.div_lt_self (Nat.pos_of_ne_zero hn) (by norm_num)
        omega
      simp only [decDigitsRevAux, if_neg hn, valOfDigitsRev, ih _ hdiv]
      exact Nat.mod_add_div n 10

theorem parseDigitChars_map_digitChar10 :
    ∀ l : List Nat, (∀ d ∈ l, d < 10) →
      parseDigitChars (l.map digitChar10) = some l := by
  intro l
  induction l with
  | nil => intro _; rfl
  | cons a as ih =>
    intro h
    have ha : a < 10 := h a (List.mem_cons_self a as)
    have has : ∀ d ∈ as, d < 10 := fun d hd => h d (List.mem_cons_of_mem a hd)
    simp only [List.map_cons, parseDigitChars, charDigit10_digitChar10 a ha,
      ih has]

theorem decDigitsRev_ne_nil (t : Nat) (ht : t ≠ 0) : decDigitsRev t ≠ [] := by
  unfold decDigitsRev
  cases t with
  | zero => exact absurd rfl ht
  | succ k => simp [decDigitsRevAux, ht]

theorem tsParse_tsRender (t : Nat) : tsParse (tsRender t) = some t := by
  by_cases ht : t = 0
  · subst ht; rfl
  · have hpd : parseDigitChars (((decDigitsRev t).map digitChar10).reverse) =
        some (decDigitsRev t).reverse := by
      rw [← List.map_reverse]
      exact parseDigitChars_map_digitChar10 _
        (fun d hd => decDigitsRevAux_lt_ten _ _ _ (List.mem_reverse.mp hd))
    have hne : ((decDigitsRev t).map digitChar10).reverse ≠ [] := by
      simp only [ne_eq, List.reverse_eq_nil_iff, List.map_eq_nil_iff]
      exact decDigitsRev_ne_nil t ht
    unfold tsRender
    rw [if_neg ht]
    unfold tsParse
    simp only [String.data]
    rw [if_neg (by simpa [List.isEmpty_iff] using hne)]
    rw [hpd]
    simp only [List.reverse_reverse]
    unfold decDigitsRev
    rw [valOfDigitsRev_decDigitsRevAux t t le_rfl]

theorem taskStateFromStr_asStr (s : TaskState) :
    taskStateFromStr s.asStr = some s := by
  cases s <;> rfl

theorem decode_encode_metadata (m : TaskMetadata) :
    decodeMetadata (encodeMetadata m) = some m := by
  obtain ⟨id, title, state, ca, ua, lr, ip, lp, cp, wd⟩ := m
  cases title <;> cases lr <;> cases ip <;> cases lp <;> cases cp <;>
    cases wd <;>
    simp [encodeMetadata, decodeMetadata, getStrField, getOptStrField,
      jlookup, optField, tsParse_tsRender, taskStateFromStr_asStr]

theorem promptBlank_of_whitespace (s : String)
    (h : ∀ c ∈ s.data, rustIsWhitespace c = true) : promptBlank s = true := by
  unfold promptBlank trimChars
  rw [List.dropWhile_eq_nil_iff.mpr (fun x hx => h x hx)]
  rfl

theorem findDir_setDir (l : List (String × TaskDir)) (tid : String)
    (d : TaskDir) : findDir (setDir l tid d) tid = some d := by
  induction l with
  | nil => simp [setDir, findDir]
  | cons p rest ih =>
    obtain ⟨k, d0⟩ := p
    by_cases hk : k = tid
    · simp [setDir, findDir, hk]
    · simp [setDir, findDir, hk, ih]

theorem read_metadata_ok_id (d : TaskDir) (tid : String) (m : TaskMetadata)
    (h : read_metadata d tid = .ok m) : m.id = tid := by
  unfold read_metadata at h
  cases hj : d.metaFile with
  | none => simp [hj] at h
  | some j =>
    simp only [hj] at h
    cases hd : decodeMetadata j with
    | none => simp [hd] at h
    | some m0 =>
      simp only [hd] at h
      by_cases hid : m0.id = tid
      · rw [if_pos hid] at h
        cases h
        exact hid
      · rw [if_neg hid] at h
        exact absurd h (by simp)

/-- C2. **State derivation table.** `derive_active_state` is a pure function
of the stored state, the presence of the recorded PID, and the liveness of
that PID, and it agrees with the table of spec §4.2 on every row: RUNNING
with a live PID stays RUNNING; RUNNING with the PID file absent or the
process dead becomes DIED; STOPPED and ARCHIVED are fixed regardless of PID
and liveness; DIED with a live PID becomes RUNNING and otherwise stays
DIED. -/
theorem derive_active_state_matches_table (s : TaskState) (pid : Option Int)
    (kill : Int → KillResult) :
    derive_active_state s pid kill =
      claimDerivationTable s pid.isSome (aliveOf pid kill) := by
  cases pid with
  | none => cases s <;> rfl
  | some p =>
    cases hs : status_is_process_running p kill <;> cases s <;>
      simp [derive_active_state, aliveOf, claimDerivationTable,
        derive_state_without_pid, hs]

/-- C3 (counterexample). The probe internal to state derivation
(`src/tasks/status.rs`) violates the claimed probe contract at concrete
inputs: PID `0` is probed and — the null signal to one's own process group
succeeding — reported alive, although the claim requires every PID `≤ 0`
to be reported not alive without probing; and an unexpected errno (`22`,
`EINVAL`-like) is mapped to "not alive" instead of being propagated as an
error. -/
theorem liveness_probe_claim_cex :
    status_is_process_running 0 (fun _ => KillResult.success) = true ∧
    status_is_process_running 7 (fun _ => KillResult.failure (some 22)) =
      false := by
  exact ⟨rfl, rfl⟩

/-- C3 (amended). The service-level probe (`src/commands/common.rs`)
behaves exactly as the claim states: PIDs `≤ 0` are reported not alive
without consulting the probe, success and `EPERM` mean alive, `ESRCH` means
not alive, and any other outcome is propagated as an error. The probe
internal to state derivation (`src/tasks/status.rs`) instead reports alive
exactly on success or `EPERM`, never propagates, and has no PID guard. -/
theorem liveness_probe_characterization (pid : Int)
    (kill : Int → KillResult) :
    (pid ≤ 0 → ∀ kill2 : Int → KillResult,
      common_is_process_running pid kill =
        common_is_process_running pid kill2 ∧
      common_is_process_running pid kill = .ok false) ∧
    (0 < pid → kill pid = .success →
      common_is_process_running pid kill = .ok true) ∧
    (0 < pid → kill pid = .failure (some ESRCH) →
      common_is_process_running pid kill = .ok false) ∧
    (0 < pid → kill pid = .failure (some EPERM) →
      common_is_process_running pid kill = .ok true) ∧
    (0 < pid → ∀ e, kill pid = .failure e → e ≠ some ESRCH →
      e ≠ some EPERM →
      common_is_process_running pid kill =
        .error (.msg "failed to query status of process")) ∧
    (status_is_process_running pid kill = true ↔
      (kill pid = .success ∨ kill pid = .failure (some EPERM))) := by
  refine ⟨?_, ?_, ?_, ?_, ?_, ?_⟩
  · intro hle kill2
    constructor <;> simp [common_is_process_running, hle]
  · intro hpos hk
    simp [common_is_process_running, not_le.mpr hpos, hk]
  · intro hpos hk
    simp [common_is_process_running, not_le.mpr hpos, hk]
  · intro hpos hk
    simp [common_is_process_running, not_le.mpr hpos, hk, ESRCH, EPERM]
  · intro hpos e hk hne1 hne2
    simp [common_is_process_running, not_le.mpr hpos, hk, hne1, hne2]
  · cases hk : kill pid with
    | success => simp [status_is_process_running, hk]
    | failure e =>
      cases e with
      | none => simp [status_is_process_running, hk]
      | some c =>
        by_cases hc : c = EPERM
        · simp [status_is_process_running, hk, hc]
        · simp [status_is_process_running, hk, hc, EPERM]

/-- C3 (witness for the amended characterization at concrete inputs). -/
theorem liveness_probe_characterization_witness :
    common_is_process_running 5 (fun _ => KillResult.success) = .ok true ∧
    common_is_process_running (-1) (fun _ => KillResult.success) =
      .ok false ∧
    common_is_process_running 5 (fun _ => KillResult.failure (some 3)) =
      .ok false ∧
    common_is_process_running 5 (fun _ => KillResult.failure (some 22)) =
      .error (.msg "failed to query status of process") := by
  refine ⟨?_, ?_, ?_, ?_⟩
  · exact (liveness_probe_characterization 5 (fun _ => KillResult.success)).2.1
      (by norm_num) rfl
  · exact ((liveness_probe_characterization (-1)
      (fun _ => KillResult.success)).1 (by norm_num)
        (fun _ => KillResult.success)).2
  · exact (liveness_probe_characterization 5
      (fun _ => KillResult.failure (some 3))).2.2.1 (by norm_num) rfl
  · exact (liveness_probe_characterization 5
      (fun _ => KillResult.failure (some 22))).2.2.2.2.1 (by norm_num)
      (some 22) rfl (by decide) (by decide)

/-- C10. **Whitespace-only prompts.** `start_task` and `send_prompt` reject
not only the empty prompt but any prompt consisting entirely of whitespace
(`prompt.trim().is_empty()`), failing with the validation error before any
worker is spawned (no effects) and before any store mutation. -/
theorem blank_prompt_rejected (prompt : String)
    (hws : ∀ c ∈ prompt.data, rustIsWhitespace c = true) :
    (∀ st env title configFile workingDir repoUrl repoRef,
      start_task st env
        { title := title, prompt := prompt, configFile := configFile,
          workingDir := workingDir, repoUrl := repoUrl, repoRef := repoRef } =
        (.error (.msg "prompt must not be empty"), [])) ∧
    (∀ st kill tid,
      send_prompt st kill tid prompt =
        (.error (.msg "prompt must not be empty"), st, [])) := by
  have hb : promptBlank prompt = true := promptBlank_of_whitespace prompt hws
  constructor
  · intro st env title configFile workingDir repoUrl repoRef
    simp [start_task, hb]
  · intro st kill tid
    simp [send_prompt, hb]

/-- C10 (witness): the three-character whitespace prompt of a space, a tab
and a newline is rejected by both operations at a concrete store. -/
theorem blank_prompt_rejected_witness :
    start_task
      { root := "r", active := [], archive := [] }
      { configResolution := .ok none, workingDirPrep := .ok none,
        cwd := "cwd", spawnResult := .ok (), handshake := .ok "tid" }
      { title := none, prompt := " \t\n", configFile := none,
        workingDir := none, repoUrl := none, repoRef := none } =
      (.error (.msg "prompt must not be empty"), []) ∧
    send_prompt { root := "r", active := [], archive := [] }
      (fun _ => KillResult.success) "t1" " \t\n" =
      (.error (.msg "prompt must not be empty"),
        { root := "r", active := [], archive := [] }, []) := by
  have h := blank_prompt_rejected " \t\n" (by decide)
  exact ⟨h.1 _ _ none none none none none, h.2 _ _ "t1"⟩

/-- C6. **Send refusals.** `send_prompt` rejects the empty prompt; fails
with a not-found error when the task is in neither the active root nor the
archive; fails with the ARCHIVED refusal when the task is found only in the
archive or its stored state is ARCHIVED; and on stored state DIED fails
with a message containing `has DIED and cannot receive prompts` — and in
every refusal case the store is unchanged and no effect (in particular no
worker launch and no FIFO write) is emitted. -/
theorem send_prompt_refusals (st : StoreState) (kill : Int → KillResult)
    (tid : String) (prompt : String) :
    (send_prompt st kill tid "" =
      (.error (.msg "prompt must not be empty"), st, [])) ∧
    (promptBlank prompt = false → findDir st.active tid = none →
      findArchivedTask st.archive tid = .ok none →
      send_prompt st kill tid prompt =
        (.error (.msg ("task " ++ tid ++ " was not found")), st, [])) ∧
    (∀ am, promptBlank prompt = false → findDir st.active tid = none →
      findArchivedTask st.archive tid = .ok (some am) →
      send_prompt st kill tid prompt =
        (.error (.msg ("task " ++ am.id ++
          " is ARCHIVED and cannot receive prompts")), st, [])) ∧
    (∀ d m, promptBlank prompt = false → findDir st.active tid = some d →
      read_metadata d tid = .ok m → m.state = .archived →
      send_prompt st kill tid prompt =
        (.error (.msg ("task " ++ m.id ++
          " is ARCHIVED and cannot receive prompts")), st, [])) ∧
    (∀ d m, promptBlank prompt = false → findDir st.active tid = some d →
      read_metadata d tid = .ok m → m.state = .died →
      send_prompt st kill tid prompt =
        (.error (.msg ("task " ++ m.id ++
          " has DIED and cannot receive prompts")), st, [])) ∧
    (∀ id0, ∃ pre post,
      ("task " ++ id0 ++ " has DIED and cannot receive prompts").data =
        pre ++ ("has DIED and cannot receive prompts").data ++ post) := by
  refine ⟨?_, ?_, ?_, ?_, ?_, ?_⟩
  · simp [send_prompt, show promptBlank "" = true from rfl]
  · intro hb h1 h2
    simp [send_prompt, hb, h1, sendPromptArchiveFallback, h2]
  · intro am hb h1 h2
    simp [send_prompt, hb, h1, sendPromptArchiveFallback, h2]
  · intro d m hb h1 h2 hstate
    simp [send_prompt, hb, h1, h2, hstate]
  · intro d m hb h1 h2 hstate
    simp [send_prompt, hb, h1, h2, hstate]
  · intro id0
    refine ⟨("task " ++ id0 ++ " ").data, [], ?_⟩
    have hsplit : (" has DIED and cannot receive prompts" : String) =
        " " ++ "has DIED and cannot receive prompts" := rfl
    calc ("task " ++ id0 ++ " has DIED and cannot receive prompts").data
        = ("task " ++ id0).data ++
            (" has DIED and cannot receive prompts").data := by
          rw [String.data_append]
      _ = ("task " ++ id0).data ++
            ((" ").data ++ ("has DIED and cannot receive prompts").data) := by
          rw [hsplit]; simp [String.data_append]
      _ = ("task " ++ id0 ++ " ").data ++
            ("has DIED and cannot receive prompts").data ++ [] := by
          simp [String.data_append]

/-- C6 (witness): a concrete store holding one task `t1` whose stored state
is DIED refuses `send_prompt` with the exact DIED message, leaving the
store unchanged and emitting no effect. -/
theorem send_prompt_refusals_witness :
    send_prompt
      { root := "r",
        active := [("t1",
          { metaFile := some (encodeMetadata
              { id := "t1", title := none, state := .died, created_at := 1,
                updated_at := 2, last_result := none, initial_prompt := none,
                last_prompt := none, config_path := none,
                working_dir := none }),
            pidFile := none, pipeFile := false, logFile := none,
            resultFile := none })],
        archive := [] }
      (fun _ => KillResult.success) "t1" "hi" =
      (.error (.msg "task t1 has DIED and cannot receive prompts"),
        { root := "r",
          active := [("t1",
            { metaFile := some (encodeMetadata
                { id := "t1", title := none, state := .died, created_at := 1,
                  updated_at := 2, last_result := none,
                  initial_prompt := none, last_prompt := none,
                  config_path := none, working_dir := none }),
              pidFile := none, pipeFile := false, logFile := none,
              resultFile := none })],
          archive := [] }, []) := by
  exact (send_prompt_refusals
      { root := "r",
        active := [("t1",
          { metaFile := some (encodeMetadata
              { id := "t1", title := none, state := .died, created_at := 1,
                updated_at := 2, last_result := none, initial_prompt := none,
                last_prompt := none, config_path := none,
                working_dir := none }),
            pidFile := none, pipeFile := false, logFile := none,
            resultFile := none })],
        archive := [] }
      (fun _ => KillResult.success) "t1" "hi").2.2.2.2.1
    { metaFile := some (encodeMetadata
        { id := "t1", title := none, state := .died, created_at := 1,
          updated_at := 2, last_result := none, initial_prompt := none,
          last_prompt := none, config_path := none, working_dir := none }),
      pidFile := none, pipeFile := false, logFile := none,
      resultFile := none }
    { id := "t1", title := none, state := .died, created_at := 1,
      updated_at := 2, last_result := none, initial_prompt := none,
      last_prompt := none, config_path := none, working_dir := none }
    (by decide) rfl rfl rfl

/-- C7. **Stop idempotence.** When the PID file is absent,
`stop_task_paths` returns `AlreadyStopped` and the task directory —
`task.json` included — is returned exactly as it was; when a PID is
recorded but the process is not alive, it returns `AlreadyStopped` and the
final directory differs from the initial one only by the removed
`task.pid` (so the metadata is untouched and no other file changes). -/
theorem stop_task_idempotent (d : TaskDir) (tid : String)
    (kill : Int → KillResult) (waitOutcome : Except StoreError Unit)
    (now : Nat) :
    (d.pidFile = none →
      stop_task_paths d tid kill waitOutcome now = (.ok .alreadyStopped, d)) ∧
    (∀ p, d.pidFile = some p → common_is_process_running p kill = .ok false →
      stop_task_paths d tid kill waitOutcome now =
        (.ok .alreadyStopped, { d with pidFile := none })) := by
  constructor
  · intro h
    simp [stop_task_paths, h]
  · intro p hp hc
    simp [stop_task_paths, hp, hc]

/-- C7 (witness): both idempotent cases at concrete directories — no PID
file, and a stale PID `5` whose probe reports `ESRCH`. -/
theorem stop_task_idempotent_witness :
    stop_task_paths TaskDir.empty "t1" (fun _ => KillResult.success)
        (.ok ()) 7 = (.ok .alreadyStopped, TaskDir.empty) ∧
    stop_task_paths
      { metaFile := some (Json.str "m"), pidFile := some 5, pipeFile := true,
        logFile := some ["x"], resultFile := some "r" } "t1"
      (fun _ => KillResult.failure (some 3)) (.ok ()) 7 =
      (.ok .alreadyStopped,
        { metaFile := some (Json.str "m"), pidFile := none, pipeFile := true,
          logFile := some ["x"], resultFile := some "r" }) := by
  constructor
  · exact (stop_task_idempotent TaskDir.empty "t1"
      (fun _ => KillResult.success) (.ok ()) 7).1 rfl
  · exact (stop_task_idempotent _ "t1"
      (fun _ => KillResult.failure (some 3)) (.ok ()) 7).2 5 rfl rfl

/-- C9. **Metadata round-trip.** For every metadata record whose `id` names
the task directory, `write_metadata` succeeds (installing the serialized
record through the temp-file/fsync/rename write) and `read_metadata` on the
result returns a record equal to the original. -/
theorem metadata_round_trip (d : TaskDir) (m : TaskMetadata) (tid : String)
    (h : m.id = tid) :
    ∃ d', write_metadata m d tid = .ok d' ∧ read_metadata d' tid = .ok m := by
  refine ⟨{ d with metaFile := some (encodeMetadata m) }, ?_, ?_⟩
  · simp [write_metadata, h]
  · simp [read_metadata, decode_encode_metadata, h]

/-- C9 (witness): the round trip at a record with every optional field
present. -/
theorem metadata_round_trip_witness :
    ∃ d', write_metadata
        { id := "t9", title := some "Title", state := .stopped,
          created_at := 123, updated_at := 456,
          last_result := some "res", initial_prompt := some "ip",
          last_prompt := some "lp", config_path := some "/cfg/config.toml",
          working_dir := some "/wd" } TaskDir.empty "t9" = .ok d' ∧
      read_metadata d' "t9" = .ok
        { id := "t9", title := some "Title", state := .stopped,
          created_at := 123, updated_at := 456,
          last_result := some "res", initial_prompt := some "ip",
          last_prompt := some "lp", config_path := some "/cfg/config.toml",
          working_dir := some "/wd" } := by
  exact metadata_round_trip TaskDir.empty _ "t9" rfl

theorem send_prompt_cases (st : StoreState) (kill : Int → KillResult)
    (tid prompt : String)
    (h : (send_prompt st kill tid prompt).1 = .ok ()) :
    ∃ d m, findDir st.active tid = some d ∧ read_metadata d tid = .ok m ∧
      (m.state = .running ∨ m.state = .stopped) ∧
      (d.pidFile = none ∨ ∃ p, d.pidFile = some p ∧
        common_is_process_running p kill = .ok false) ∧
      (send_prompt st kill tid prompt).2.2 =
        [Effect.spawnWorker (mkResumeRequest st.root m prompt)] := by
  cases hb : promptBlank prompt with
  | true => simp [send_prompt, hb] at h
  | false =>
    cases hfd : findDir st.active tid with
    | none =>
      cases hfa : findArchivedTask st.archive tid with
      | error e =>
        simp [send_prompt, hb, hfd, sendPromptArchiveFallback, hfa] at h
      | ok o =>
        cases o with
        | none =>
          simp [send_prompt, hb, hfd, sendPromptArchiveFallback, hfa] at h
        | some am =>
          simp [send_prompt, hb, hfd, sendPromptArchiveFallback, hfa] at h
    | some d =>
      cases hrm : read_metadata d tid with
      | error e =>
        cases e with
        | notFound =>
          cases hfa : findArchivedTask st.archive tid with
          | error e2 =>
            simp [send_prompt, hb, hfd, hrm, sendPromptArchiveFallback,
              hfa] at h
          | ok o =>
            cases o with
            | none =>
              simp [send_prompt, hb, hfd, hrm, sendPromptArchiveFallback,
                hfa] at h
            | some am =>
              simp [send_prompt, hb, hfd, hrm, sendPromptArchiveFallback,
                hfa] at h
        | msg s =>
          simp [send_prompt, hb, hfd, hrm] at h
      | ok m =>
        by_cases har : m.state = TaskState.archived
        · simp [send_prompt, hb, hfd, hrm, har] at h
        · by_cases hdi : m.state = TaskState.died
          · simp [send_prompt, hb, hfd, hrm, har, hdi] at h
          · have hrs : m.state = .running ∨ m.state = .stopped := by
              cases hms : m.state
              · exact .inl rfl
              · exact .inr rfl
              · exact absurd hms har
              · exact absurd hms hdi
            cases hpf : d.pidFile with
            | none =>
              refine ⟨d, m, rfl, hrm, hrs, .inl hpf, ?_⟩
              simp [send_prompt, hb, hfd, hrm, har, hdi, hpf,
                sendPromptSpawn]
            | some p =>
              cases hc : common_is_process_running p kill with
              | error e =>
                simp [send_prompt, hb, hfd, hrm, har, hdi, hpf, hc] at h
              | ok b =>
                cases b with
                | true =>
                  simp [send_prompt, hb, hfd, hrm, har, hdi, hpf, hc] at h
                | false =>
                  refine ⟨d, m, rfl, hrm, hrs, .inr ⟨p, hpf, hc⟩, ?_⟩
                  simp [send_prompt, hb, hfd, hrm, har, hdi, hpf, hc,
                    sendPromptSpawn]

/-- C1 (corrected). **Prompt delivery on success.** For the `send_prompt`
under verification (src/tasks/service.rs) a call that returns success has
delivered the prompt by launching a fresh worker process for this very
task: the effect trace is exactly one `spawn_worker` launch whose request
carries the prompt and names the task id (so the worker resumes this
task's assistant thread). No FIFO is opened and nothing is written onto
`task.pipe`. Moreover success implies that no live worker PID was
recorded: the task's directory was found in the active root with its PID
file absent, or present but probed dead. -/
theorem send_prompt_success_spawns_worker (st : StoreState)
    (kill : Int → KillResult) (tid prompt : String)
    (h : (send_prompt st kill tid prompt).1 = .ok ()) :
    ∃ req, (send_prompt st kill tid prompt).2.2 =
        [Effect.spawnWorker req] ∧
      req.prompt = prompt ∧
      req.taskId = some tid ∧
      (∃ d, findDir st.active tid = some d ∧
        (d.pidFile = none ∨ ∃ p, d.pidFile = some p ∧
          common_is_process_running p kill = .ok false)) ∧
      (∀ t0 payload,
        Effect.fifoWrite t0 payload ∉ (send_prompt st kill tid prompt).2.2) ∧
      (∀ t0,
        Effect.openFifoWrite t0 ∉ (send_prompt st kill tid prompt).2.2) := by
  obtain ⟨d, m, hfd, hrm, hrs, hpid, heff⟩ :=
    send_prompt_cases st kill tid prompt h
  have hid : m.id = tid := read_metadata_ok_id d tid m hrm
  refine ⟨mkResumeRequest st.root m prompt, heff, rfl, ?_,
    ⟨d, hfd, hpid⟩, ?_, ?_⟩
  · simp [mkResumeRequest, hid]
  · intro t0 payload hmem
    rw [heff] at hmem
    simp at hmem
  · intro t0 hmem
    rw [heff] at hmem
    simp at hmem

/-- C1 (counterexample). At a concrete store holding a `STOPPED` task `t1`
with no recorded PID, `send_prompt` returns success, yet it has not opened
the task's FIFO for writing and has not written the prompt bytes plus
newline onto it — refuting the claim that a successful send delivers the
prompt through `task.pipe`. (Delivery happens by spawning a resume
worker.) -/
theorem send_prompt_success_without_fifo_cex :
    (send_prompt
      { root := "r",
        active := [("t1",
          { metaFile := some (encodeMetadata
              { id := "t1", title := none, state := .stopped,
                created_at := 1, updated_at := 2, last_result := none,
                initial_prompt := none, last_prompt := none,
                config_path := none, working_dir := none }),
            pidFile := none, pipeFile := true, logFile := none,
            resultFile := none })],
        archive := [] }
      (fun _ => KillResult.failure (some 3)) "t1" "hi").1 = .ok () ∧
    Effect.openFifoWrite "t1" ∉
      (send_prompt
        { root := "r",
          active := [("t1",
            { metaFile := some (encodeMetadata
                { id := "t1", title := none, state := .stopped,
                  created_at := 1, updated_at := 2, last_result := none,
                  initial_prompt := none, last_prompt := none,
                  config_path := none, working_dir := none }),
              pidFile := none, pipeFile := true, logFile := none,
              resultFile := none })],
          archive := [] }
        (fun _ => KillResult.failure (some 3)) "t1" "hi").2.2 ∧
    Effect.fifoWrite "t1" "hi\n" ∉
      (send_prompt
        { root := "r",
          active := [("t1",
            { metaFile := some (encodeMetadata
                { id := "t1", title := none, state := .stopped,
                  created_at := 1, updated_at := 2, last_result := none,
                  initial_prompt := none, last_prompt := none,
                  config_path := none, working_dir := none }),
              pidFile := none, pipeFile := true, logFile := none,
              resultFile := none })],
          archive := [] }
        (fun _ => KillResult.failure (some 3)) "t1" "hi").2.2 := by
  refine ⟨rfl, by decide, by decide⟩

/-- C1 (witness for the corrected theorem): the same concrete store, where
the successful send's trace is the single worker launch whose request
names task `t1` and carries the prompt, the recorded PID condition holds
(no PID file), and no FIFO effect appears. -/
theorem send_prompt_success_spawns_worker_witness :
    ∃ req,
      (send_prompt
        { root := "r",
          active := [("t1",
            { metaFile := some (encodeMetadata
                { id := "t1", title := none, state := .stopped,
                  created_at := 1, updated_at := 2, last_result := none,
                  initial_prompt := none, last_prompt := none,
                  config_path := none, working_dir := none }),
              pidFile := none, pipeFile := true, logFile := none,
              resultFile := none })],
          archive := [] }
        (fun _ => KillResult.failure (some 3)) "t1" "hi").2.2 =
        [Effect.spawnWorker req] ∧
      req.prompt = "hi" ∧
      req.taskId = some "t1" ∧
      (∃ d, findDir
          [("t1",
            { metaFile := some (encodeMetadata
                { id := "t1", title := none, state := .stopped,
                  created_at := 1, updated_at := 2, last_result := none,
                  initial_prompt := none, last_prompt := none,
                  config_path := none, working_dir := none }),
              pidFile := none, pipeFile := true, logFile := none,
              resultFile := none })] "t1" = some d ∧
        (d.pidFile = none ∨ ∃ p, d.pidFile = some p ∧
          common_is_process_running p (fun _ => KillResult.failure (some 3)) =
            .ok false)) ∧
      (∀ t0 payload, Effect.fifoWrite t0 payload ∉
        (send_prompt
          { root := "r",
            active := [("t1",
              { metaFile := some (encodeMetadata
                  { id := "t1", title := none, state := .stopped,
                    created_at := 1, updated_at := 2, last_result := none,
                    initial_prompt := none, last_prompt := none,
                    config_path := none, working_dir := none }),
                pidFile := none, pipeFile := true, logFile := none,
                resultFile := none })],
            archive := [] }
          (fun _ => KillResult.failure (some 3)) "t1" "hi").2.2) ∧
      (∀ t0, Effect.openFifoWrite t0 ∉
        (send_prompt
          { root := "r",
            active := [("t1",
              { metaFile := some (encodeMetadata
                  { id := "t1", title := none, state := .stopped,
                    created_at := 1, updated_at := 2, last_result := none,
                    initial_prompt := none, last_prompt := none,
                    config_path := none, working_dir := none }),
                pidFile := none, pipeFile := true, logFile := none,
                resultFile := none })],
            archive := [] }
          (fun _ => KillResult.failure (some 3)) "t1" "hi").2.2) := by
  exact send_prompt_success_spawns_worker
    { root := "r",
      active := [("t1",
        { metaFile := some (encodeMetadata
            { id := "t1", title := none, state := .stopped,
              created_at := 1, updated_at := 2, last_result := none,
              initial_prompt := none, last_prompt := none,
              config_path := none, working_dir := none }),
          pidFile := none, pipeFile := true, logFile := none,
          resultFile := none })],
      archive := [] }
    (fun _ => KillResult.failure (some 3)) "t1" "hi" rfl

theorem write_metadata_ok (m : TaskMetadata) (d : TaskDir) (tid : String)
    (h : m.id = tid) :
    write_metadata m d tid = .ok { d with metaFile := some (encodeMetadata m) } := by
  simp [write_metadata, h]

theorem archiveFinish_dest_error (st1 : StoreState) (d1 : TaskDir)
    (m1 : TaskMetadata) (tid : String) (now : Nat) (bucket : String)
    (hm1 : m1.id = tid) (hdest : destExists st1.archive bucket m1.id = true) :
    (archiveFinish st1 d1 m1 tid now bucket).1 =
      .error (.msg ("archive destination " ++
        destDisplay st1.root bucket m1.id ++ " already exists for task " ++
        m1.id)) := by
  have hw := write_metadata_ok
    { m1 with state := .archived, updated_at := now }
    { d1 with pidFile := none, pipeFile := false } tid (by simpa using hm1)
  simp [archiveFinish, hw, hdest]

/-- C8. **Archive refusals.** `archive_task_inner` returns
`AlreadyArchived` (with the store untouched) when `find_archived_task`
already locates the task; fails with the RUNNING refusal when the derived
state is `RUNNING`, leaving the task unarchived (the archive tree is
unchanged and the task directory is still in the active root); and fails
with the destination-exists error when the archive destination path is
already occupied. -/
theorem archive_task_refusals (st : StoreState) (kill : Int → KillResult)
    (now : Nat) (bucket tid : String) :
    (∀ am, findArchivedTask st.archive tid = .ok (some am) →
      archive_task_inner st kill now bucket tid =
        (.ok (.alreadyArchived am.id), st)) ∧
    (∀ d m, findArchivedTask st.archive tid = .ok none →
      findDir st.active tid = some d → read_metadata d tid = .ok m →
      derive_active_state m.state d.pidFile kill = .running →
      (archive_task_inner st kill now bucket tid).1 =
        .error (.msg (archiveRunningMsg m.id)) ∧
      (archive_task_inner st kill now bucket tid).2.archive = st.archive ∧
      (findDir (archive_task_inner st kill now bucket tid).2.active
        tid).isSome = true) ∧
    (∀ d m, findArchivedTask st.archive tid = .ok none →
      findDir st.active tid = some d → read_metadata d tid = .ok m →
      derive_active_state m.state d.pidFile kill ≠ .running →
      (d.pidFile = none ∨ ∃ p, d.pidFile = some p ∧
        common_is_process_running p kill = .ok false) →
      destExists st.archive bucket m.id = true →
      (archive_task_inner st kill now bucket tid).1 =
        .error (.msg ("archive destination " ++
          destDisplay st.root bucket m.id ++ " already exists for task " ++
          m.id))) := by
  refine ⟨?_, ?_, ?_⟩
  · intro am hfa
    simp [archive_task_inner, hfa]
  · intro d m hfa hfd hrm hder
    have hid : m.id = tid := read_metadata_ok_id d tid m hrm
    by_cases hmr : m.state = TaskState.running
    · have hder2 : derive_active_state TaskState.running d.pidFile kill =
          TaskState.running := by
        nth_rewrite 1 [← hmr]
        exact hder
      refine ⟨?_, ?_, ?_⟩ <;>
        simp [archive_task_inner, hfa, hfd, hrm, hder2, hmr, archivePidGate,
          TaskMetadata.setState]
    · have hwr := write_metadata_ok
        { m with state := .running, updated_at := now } d tid hid
      refine ⟨?_, ?_, ?_⟩ <;>
        simp [archive_task_inner, hfa, hfd, hrm, hder, hmr, archivePidGate,
          TaskMetadata.setState, hwr, findDir_setDir]
  · intro d m hfa hfd hrm hder hpid hdest
    have hid : m.id = tid := read_metadata_ok_id d tid m hrm
    by_cases hsame : m.state = derive_active_state m.state d.pidFile kill
    · have hgate : archivePidGate st d m d.pidFile
          (derive_active_state m.state d.pidFile kill) kill tid now bucket =
          archiveFinish st d m tid now bucket := by
        unfold archivePidGate
        rw [if_neg hder]
        rcases hpid with hnone | ⟨p, hp, hc⟩
        · rw [hnone]
        · rw [hp]
          simp [hc]
      simp only [archive_task_inner, hfa, hfd, hrm, if_pos hsame, hgate]
      exact archiveFinish_dest_error st d m tid now bucket hid hdest
    · have hwr := write_metadata_ok
        (m.setState (derive_active_state m.state d.pidFile kill) now) d tid
        hid
      have hgate : ∀ d1 : TaskDir, archivePidGate
          { st with active := setDir st.active tid d1 } d1
          (m.setState (derive_active_state m.state d.pidFile kill) now)
          d.pidFile (derive_active_state m.state d.pidFile kill) kill tid now
          bucket =
          archiveFinish { st with active := setDir st.active tid d1 } d1
            (m.setState (derive_active_state m.state d.pidFile kill) now)
            tid now bucket := by
        intro d1
        unfold archivePidGate
        rw [if_neg hder]
        rcases hpid with hnone | ⟨p, hp, hc⟩
        · rw [hnone]
        · rw [hp]
          simp [hc]
      simp only [archive_task_inner, hfa, hfd, hrm, if_neg hsame, hwr, hgate]
      exact archiveFinish_dest_error _ _ _ tid now bucket
        (by simpa [TaskMetadata.setState] using hid)
        (by simpa [TaskMetadata.setState] using hdest)

/-- C8 (witness): a task already present in the archive is reported
`AlreadyArchived` with the store untouched. -/
theorem archive_task_refusals_witness :
    archive_task_inner
      { root := "r", active := [],
        archive := [{
          bucket := "2024/01/02", name := "t1", isDir := true,
          dir := {
            metaFile := some (encodeMetadata {
              id := "t1", title := none, state := .archived,
              created_at := 1, updated_at := 2, last_result := none,
              initial_prompt := none, last_prompt := none,
              config_path := none, working_dir := none }),
            pidFile := none, pipeFile := false, logFile := none,
            resultFile := none } }] }
      (fun _ => KillResult.failure (some 3)) 9 "2024/03/04" "t1" =
      (.ok (.alreadyArchived "t1"),
        { root := "r", active := [],
          archive := [{
            bucket := "2024/01/02", name := "t1", isDir := true,
            dir := {
              metaFile := some (encodeMetadata {
                id := "t1", title := none, state := .archived,
                created_at := 1, updated_at := 2, last_result := none,
                initial_prompt := none, last_prompt := none,
                config_path := none, working_dir := none }),
              pidFile := none, pipeFile := false, logFile := none,
              resultFile := none } }] }) := by
  exact (archive_task_refusals _ (fun _ => KillResult.failure (some 3)) 9
      "2024/03/04" "t1").1
    { id := "t1", title := none, state := .archived, created_at := 1,
      updated_at := 2, last_result := none, initial_prompt := none,
      last_prompt := none, config_path := none, working_dir := none } rfl

/-- C4. With `CODEX_TASKS_EXIT_AFTER_START` set, `run_worker` returns
success immediately: the final store state holds no task directory at all —
in particular no `task.pid` was written and no `task.json` or FIFO was
created — and no external action (no assistant spawn, no handshake) was
taken, for every configuration, invocation environment and FIFO script.
(The claim, the variable's own doc comment in src/worker/child.rs line 20,
and tests/cli.rs expect `task.pid` to be written first: the code returns
before `Worker::new`.) -/
theorem exit_after_start_skips_pid_write (cfg : WorkerCfg) (inv : InvEnv)
    (script : List (String × InvEnv)) :
    run_worker true cfg inv script =
      (.ok (), { session := none, dirs := [] }, []) := rfl

/-- C5 (counterexample). A worker whose assistant spawns and announces
thread `t0`, but whose FIFO creation fails, exits with an error — yet the
task directory it created still holds `task.pid` (pid `42`, not removed)
and a `task.json` whose state is `RUNNING` (not `DIED`): the claimed
DIED-write and pid cleanup do not happen. -/
theorem worker_fatal_failure_claim_cex :
    (run_worker false
      { storeRoot := "r", title := none, initialPrompt := "hello",
        configPath := none, workingDir := none, pid := 42, nowTs := 1 }
      { spawnOk := true, events := [WLine.out "ev" (some "t0")],
        logOpenOk := true, mkfifoOk := false, pipeOpenOk := true,
        exitOk := true, resultContent := none } []).1 =
      .error (.msg "failed to create prompt pipe for t0") ∧
    ((findDir (run_worker false
      { storeRoot := "r", title := none, initialPrompt := "hello",
        configPath := none, workingDir := none, pid := 42, nowTs := 1 }
      { spawnOk := true, events := [WLine.out "ev" (some "t0")],
        logOpenOk := true, mkfifoOk := false, pipeOpenOk := true,
        exitOk := true, resultContent := none } []).2.1.dirs "t0").map
        TaskDir.pidFile) = some (some 42) ∧
    (((findDir (run_worker false
      { storeRoot := "r", title := none, initialPrompt := "hello",
        configPath := none, workingDir := none, pid := 42, nowTs := 1 }
      { spawnOk := true, events := [WLine.out "ev" (some "t0")],
        logOpenOk := true, mkfifoOk := false, pipeOpenOk := true,
        exitOk := true, resultContent := none } []).2.1.dirs "t0").bind
        TaskDir.metaFile).bind decodeMetadata).map TaskMetadata.state =
      some TaskState.running := by
  exact ⟨rfl, rfl, rfl⟩

/-- C5 (amended). Worker failures to spawn the assistant, to open the log,
or to create the FIFO are fatal in the sense that the error propagates and
the worker exits nonzero — but the worker performs no DIED-write and no
pid cleanup on these paths: a spawn failure leaves the store untouched
(the task directory does not exist yet), and a log-open or FIFO-creation
failure leaves the just-written `task.pid` in place and the task's
`task.json` still saying `RUNNING`. -/
theorem worker_fatal_failure_behavior (cfg : WorkerCfg) (inv : InvEnv)
    (script : List (String × InvEnv)) (t text : String)
    (hpb : promptBlank cfg.initialPrompt = false)
    (hev : inv.events = [WLine.out text (some t)]) :
    (inv.spawnOk = false →
      run_worker false cfg inv script =
        (.error (.msg "failed to spawn `codex exec`"),
          { session := none, dirs := [] },
          [WEff.spawnCodex none cfg.initialPrompt])) ∧
    (inv.spawnOk = true → inv.logOpenOk = false →
      ∃ d : TaskDir,
        run_worker false cfg inv script =
          (.error (.msg ("failed to open log file for task " ++ t)),
            { session := none, dirs := [(t, d)] },
            [WEff.spawnCodex none cfg.initialPrompt]) ∧
        d.pidFile = some cfg.pid ∧
        (d.metaFile.bind decodeMetadata).map TaskMetadata.state =
          some TaskState.running ∧
        d.pipeFile = false) ∧
    (inv.spawnOk = true → inv.logOpenOk = true → inv.mkfifoOk = false →
      ∃ d : TaskDir,
        run_worker false cfg inv script =
          (.error (.msg ("failed to create prompt pipe for " ++ t)),
            { session := none, dirs := [(t, d)] },
            [WEff.spawnCodex none cfg.initialPrompt]) ∧
        d.pidFile = some cfg.pid ∧
        (d.metaFile.bind decodeMetadata).map TaskMetadata.state =
          some TaskState.running ∧
        d.pipeFile = false) := by
  refine ⟨?_, ?_, ?_⟩
  · intro hspawn
    simp [run_worker, worker_run_invocation, hpb, hspawn]
  · intro hspawn hlog
    refine ⟨{ TaskDir.empty with
                pidFile := some cfg.pid,
                metaFile := some (encodeMetadata
                  { TaskMetadata.new t cfg.title .running cfg.nowTs with
                      initial_prompt := some cfg.initialPrompt,
                      last_prompt := some cfg.initialPrompt }) },
      ?_, rfl, ?_, rfl⟩
    · simp [run_worker, worker_run_invocation, hpb, hspawn, hev, hlog,
        worker_proc_events, worker_init_session, findDir, setDir,
        TaskDir.empty, write_metadata, TaskMetadata.new]
    · simp [decode_encode_metadata, TaskMetadata.new]
  · intro hspawn hlog hfifo
    refine ⟨{ TaskDir.empty with
                pidFile := some cfg.pid,
                logFile := some [],
                metaFile := some (encodeMetadata
                  { TaskMetadata.new t cfg.title .running cfg.nowTs with
                      initial_prompt := some cfg.initialPrompt,
                      last_prompt := some cfg.initialPrompt }) },
      ?_, rfl, ?_, rfl⟩
    · simp [run_worker, worker_run_invocation, hpb, hspawn, hev, hlog, hfifo,
        worker_proc_events, worker_init_session, findDir, setDir,
        TaskDir.empty, write_metadata, TaskMetadata.new]
    · simp [decode_encode_metadata, TaskMetadata.new]

/-- C5 (witness for the amended theorem): the FIFO-creation failure case at
a concrete configuration. -/
theorem worker_fatal_failure_behavior_witness :
    ∃ d : TaskDir,
      run_worker false
        { storeRoot := "r", title := none, initialPrompt := "hello",
          configPath := none, workingDir := none, pid := 42, nowTs := 1 }
        { spawnOk := true, events := [WLine.out "ev" (some "t0")],
          logOpenOk := true, mkfifoOk := false, pipeOpenOk := true,
          exitOk := true, resultContent := none } [] =
        (.error (.msg ("failed to create prompt pipe for " ++ "t0")),
          { session := none, dirs := [("t0", d)] },
          [WEff.spawnCodex none "hello"]) ∧
      d.pidFile = some 42 ∧
      (d.metaFile.bind decodeMetadata).map TaskMetadata.state =
        some TaskState.running ∧
      d.pipeFile = false := by
  exact (worker_fatal_failure_behavior
    { storeRoot := "r", title := none, initialPrompt := "hello",
      configPath := none, workingDir := none, pid := 42, nowTs := 1 }
    { spawnOk := true, events := [WLine.out "ev" (some "t0")],
      logOpenOk := true, mkfifoOk := false, pipeOpenOk := true,
      exitOk := true, resultContent := none } [] "t0" "ev" rfl rfl).2.2
    rfl rfl rfl
